import Mathlib

/-!
Verification development for the shim socket/bootstrap subsystem of
walteh/containerd.  The Go sources embedded here are:

* pkg/sys/socket_unix.go   (package sys:  CreateUnixSocket, GetLocalListener)
* pkg/shim  socket file    (package shim: SocketAddress, AnonDialer, NewSocket,
                            socket, RemoveSocket, hybridVsockDialer, dialVsock,
                            dialHybridVsock)
* pkg/shim/shim.go         (package shim: run / serve bootstrap)
* darwin mount file        (package mount: getDawinMountSystem, Mount.mount)

Pure string manipulation is translated directly; effectful code is modelled
as a pure function from an explicit environment (the outcomes the operating
system would give each system call) to a result together with the ordered
trace of filesystem / process effects the code performs.
-/

set_option maxRecDepth 20000

/-! ### Go standard-library string helpers -/

/-- Boolean test that the first character list starts the second. -/
def charsPre : List Char → List Char → Bool
  | [], _ => true
  | a :: as, l =>
    match l with
    | [] => false
    | b :: bs => a = b && charsPre as bs

/-- Auxiliary recursion for Go's strings.Cut: find the first occurrence of
`sep` in `l`, returning the part before it and the part after it. -/
def splitOnceAux (sep : List Char) : List Char → Option (List Char × List Char)
  | [] => none
  | c :: rest =>
    if charsPre sep (c :: rest) then some ([], (c :: rest).drop sep.length)
    else
      match splitOnceAux sep rest with
      | some (pre, post) => some (c :: pre, post)
      | none => none

/-- Go strings.Cut(s, sep) for a non-empty separator: `some (before, after)`
when sep occurs in s, `none` otherwise (Go additionally returns `found`). -/
def strCut (s sep : String) : Option (String × String) :=
  match splitOnceAux sep.data s.data with
  | some (pre, post) => some (String.mk pre, String.mk post)
  | none => none

/-- Go strings.TrimPrefix(s, pre): drop `pre` from the front of `s` when it
starts with it, otherwise return `s` unchanged. -/
def strTrimPre (s pre : String) : String :=
  if charsPre pre.data s.data then String.mk (s.data.drop pre.data.length) else s

/-- Go strings.HasPrefix(s, pre). -/
def strHasPre (s pre : String) : Bool :=
  charsPre pre.data s.data

/-- Go strings.Contains(s, sub) for the non-empty separators used here. -/
def strContains (s sub : String) : Bool :=
  (splitOnceAux sub.data s.data).isSome

/-! ### Go path/filepath (unix): Clean, Join, Dir

Translated from Go's path/filepath; `out` is kept reversed (most recently
appended character first), so appending is cons and backtracking drops from
the head. -/

/-- Backtracking step of filepath.Clean for a `..` element: pop the last
output character, then keep popping while the output is longer than the
`dotdot` barrier and the character just popped is not a slash. -/
def cleanPop (dotdot : Nat) : List Char → List Char
  | [] => []
  | c :: rest =>
    if rest.length > dotdot && c != '/' then cleanPop dotdot rest else rest

/-- Main loop of Go filepath.Clean.  `remaining` is the unread input,
`out` the output so far (reversed), `dotdot` the backtrack barrier.  Each
iteration consumes at least one input character, so recursion is driven by
a fuel argument instantiated with the input length (enough to read all of
it); the fuel-exhausted branch is never reached from `filepathClean`. -/
def cleanLoop (rooted : Bool) : Nat → List Char → List Char → Nat → List Char
  | _, [], out, _ => out
  | 0, _, out, _ => out
  | fuel + 1, c :: rest, out, dotdot =>
    if c = '/' then
      cleanLoop rooted fuel rest out dotdot
    else if c = '.' && (rest = [] || rest.head? = some '/') then
      cleanLoop rooted fuel rest out dotdot
    else if c = '.' && rest.head? = some '.' &&
        (rest.tail = [] || rest.tail.head? = some '/') then
      if out.length > dotdot then
        cleanLoop rooted fuel rest.tail (cleanPop dotdot out) dotdot
      else if !rooted then
        let out2 := if out.length > 0 then '/' :: out else out
        let out3 := '.' :: '.' :: out2
        cleanLoop rooted fuel rest.tail out3 out3.length
      else
        cleanLoop rooted fuel rest.tail out dotdot
    else
      let out2 :=
        if (rooted && out.length ≠ 1) || (!rooted && out.length ≠ 0) then '/' :: out
        else out
      let seg := rest.takeWhile (· ≠ '/')
      cleanLoop rooted fuel (rest.dropWhile (· ≠ '/')) (seg.reverse ++ c :: out2) dotdot

/-- Go filepath.Clean for unix paths. -/
def filepathClean (path : String) : String :=
  if path = "" then "."
  else
    let l := path.data
    let rooted := l.head? = some '/'
    let out :=
      if rooted then cleanLoop true l.length l.tail ['/'] 1
      else cleanLoop false l.length l [] 0
    if out.length = 0 then "." else String.mk out.reverse

/-- Go filepath.Join: drop leading empty elements, join the rest (empty or
not) with slashes, and Clean the result; all-empty input gives "". -/
def filepathJoin (elems : List String) : String :=
  match elems.dropWhile (· = "") with
  | [] => ""
  | rest => filepathClean (String.intercalate "/" rest)

/-- Go filepath.Dir for unix paths: everything up to (and including) the
final slash, Cleaned; "." when there is no slash. -/
def filepathDir (path : String) : String :=
  filepathClean (String.mk ((path.data.reverse.dropWhile (· ≠ '/')).reverse))

/-! ### SHA-256 (FIPS 180-4) over byte lists, words as Nat mod 2^32 -/

/-- Reduce a Nat to a 32-bit word. -/
def w32 (n : Nat) : Nat := n % 4294967296

/-- Right rotation of a 32-bit word by `n` places. -/
def rotr32 (n x : Nat) : Nat := w32 (x >>> n ||| x <<< (32 - n))

/-- Bitwise complement of a 32-bit word. -/
def not32 (x : Nat) : Nat := 4294967295 - w32 x

/-- SHA-256 Ch function. -/
def shaCh (x y z : Nat) : Nat := (x &&& y) ^^^ (not32 x &&& z)

/-- SHA-256 Maj function. -/
def shaMaj (x y z : Nat) : Nat := (x &&& y) ^^^ (x &&& z) ^^^ (y &&& z)

/-- SHA-256 Sigma0 (upper case). -/
def shaS0 (x : Nat) : Nat := rotr32 2 x ^^^ rotr32 13 x ^^^ rotr32 22 x

/-- SHA-256 Sigma1 (upper case). -/
def shaS1 (x : Nat) : Nat := rotr32 6 x ^^^ rotr32 11 x ^^^ rotr32 25 x

/-- SHA-256 sigma0 (lower case). -/
def shas0 (x : Nat) : Nat := rotr32 7 x ^^^ rotr32 18 x ^^^ (x >>> 3)

/-- SHA-256 sigma1 (lower case). -/
def shas1 (x : Nat) : Nat := rotr32 17 x ^^^ rotr32 19 x ^^^ (x >>> 10)

/-- SHA-256 round constants (FIPS 180-4, written in decimal). -/
def shaK : List Nat :=
  [1116352408, 1899447441, 3049323471, 3921009573, 961987163,
   1508970993, 2453635748, 2870763221, 3624381080, 310598401,
   607225278, 1426881987, 1925078388, 2162078206, 2614888103,
   3248222580, 3835390401, 4022224774, 264347078, 604807628,
   770255983, 1249150122, 1555081692, 1996064986, 2554220882,
   2821834349, 2952996808, 3210313671, 3336571891, 3584528711,
   113926993, 338241895, 666307205, 773529912, 1294757372,
   1396182291, 1695183700, 1986661051, 2177026350, 2456956037,
   2730485921, 2820302411, 3259730800, 3345764771, 3516065817,
   3600352804, 4094571909, 275423344, 430227734, 506948616,
   659060556, 883997877, 958139571, 1322822218, 1537002063,
   1747873779, 1955562222, 2024104815, 2227730452, 2361852424,
   2428436474, 2756734187, 3204031479, 3329325298]

/-- SHA-256 initial hash value (FIPS 180-4, written in decimal). -/
def shaH0 : List Nat :=
  [1779033703, 3144134277, 1013904242, 2773480762, 1359893119,
   2600822924, 528734635, 1541459225]

/-- Big-endian 8-byte encoding of a Nat (the message bit length). -/
def be64 (n : Nat) : List Nat :=
  [n >>> 56 % 256, n >>> 48 % 256, n >>> 40 % 256, n >>> 32 % 256,
   n >>> 24 % 256, n >>> 16 % 256, n >>> 8 % 256, n % 256]

/-- SHA-256 padding: append 0x80, zero bytes up to 56 mod 64, and the
64-bit big-endian bit length. -/
def shaPad (msg : List Nat) : List Nat :=
  msg ++ 0x80 :: List.replicate ((119 - msg.length % 64) % 64) 0 ++ be64 (8 * msg.length)

/-- Group bytes into big-endian 32-bit words. -/
def bytesToWords : List Nat → List Nat
  | b0 :: b1 :: b2 :: b3 :: rest =>
    (b0 * 16777216 + b1 * 65536 + b2 * 256 + b3) :: bytesToWords rest
  | _ => []

/-- Split a word list into blocks of 16 words; the fuel bounds the number
of blocks and is instantiated with the list length, which always
suffices. -/
def chunks16Go : Nat → List Nat → List (List Nat)
  | _, [] => []
  | 0, _ => []
  | fuel + 1, w :: ws => ((w :: ws).take 16) :: chunks16Go fuel (ws.drop 15)

/-- Split a word list into blocks of 16 words. -/
def chunks16 (ws : List Nat) : List (List Nat) :=
  chunks16Go ws.length ws

/-- One step of the message-schedule extension; the schedule is kept
reversed (newest word first). -/
def schedStep (wsRev : List Nat) : List Nat :=
  w32 (shas1 (wsRev.getD 1 0) + wsRev.getD 6 0 + shas0 (wsRev.getD 14 0) + wsRev.getD 15 0)
    :: wsRev

/-- Full 64-word message schedule of one 16-word block. -/
def shaSchedule (block : List Nat) : List Nat :=
  (schedStep^[48] block.reverse).reverse

/-- One SHA-256 compression round on the 8-word working state. -/
def shaRound (st : List Nat) (wk : Nat × Nat) : List Nat :=
  match st with
  | [a, b, c, d, e, f, g, h] =>
    let t1 := w32 (h + shaS1 e + shaCh e f g + wk.2 + wk.1)
    let t2 := w32 (shaS0 a + shaMaj a b c)
    [w32 (t1 + t2), a, b, c, w32 (d + t1), e, f, g]
  | other => other

/-- Compress one 16-word block into the running hash. -/
def shaBlock (hsh : List Nat) (block : List Nat) : List Nat :=
  let st := ((shaSchedule block).zip shaK).foldl shaRound hsh
  hsh.zipWith (fun x y => w32 (x + y)) st

/-- Big-endian byte decomposition of a 32-bit word. -/
def wordBytes (n : Nat) : List Nat :=
  [n >>> 24 % 256, n >>> 16 % 256, n >>> 8 % 256, n % 256]

/-- SHA-256 digest (32 bytes) of a byte list. -/
def sha256 (msg : List Nat) : List Nat :=
  (((chunks16 (bytesToWords (shaPad msg))).foldl shaBlock shaH0).map wordBytes).flatten

/-- Lowercase hexadecimal digit. -/
def hexDigit (n : Nat) : Char :=
  if n < 10 then Char.ofNat (48 + n) else Char.ofNat (87 + n)

/-- Lowercase hexadecimal rendering of a byte list (Go fmt %x on bytes). -/
def hexStr (bytes : List Nat) : String :=
  String.mk (bytes.foldr (fun b acc => hexDigit (b / 16) :: hexDigit (b % 16) :: acc) [])

/-- UTF-8 bytes of a string; all strings handled here are ASCII, for which
the code points are the bytes. -/
def strBytes (s : String) : List Nat := s.data.map Char.toNat

/-- Lowercase hex SHA-256 digest of a string, as printed by Go's %x. -/
def sha256hex (s : String) : String := hexStr (sha256 (strBytes s))

/-! ### package shim: socket, SocketAddress, dialers (socket_unix.go) -/

/-- Go `type socket string`, method isAbstract: a socket address is abstract
iff it does not start with "unix://". -/
def sockIsAbstract (s : String) : Bool :=
  !(strHasPre s "unix://")

/-- Go socket.path: trim the "unix://" scheme; if nothing was trimmed the
address is taken as abstract and gets the NUL abstract-socket marker. -/
def sockPath (s : String) : String :=
  let path := strTrimPre s "unix://"
  if path.data.length = s.data.length then "\x00" ++ path else path

/-- Result of SocketAddress: the namespace comes from the ambient context
via namespaces.NamespaceRequired (external package, which fails when no
namespace is set); `ns` here is the successfully extracted namespace.
`addressFlag` is the package-global `-address` flag value.  Mirrors:
join socketPath/ns/id (+"/debug"), SHA-256 it, and format
"unix://%s/%x" with Join(Dir(addressFlag), "s"). -/
def SocketAddress (addressFlag socketPath ns id : String) (debug : Bool) : String :=
  let path := filepathJoin [socketPath, ns, id]
  let path := if debug then filepathJoin [path, "debug"] else path
  let d := sha256 (strBytes path)
  let sockroot := filepathDir addressFlag
  "unix://" ++ filepathJoin [sockroot, "s"] ++ "/" ++ hexStr d

/-- Digest path of the spec's ComputeAddress: root/namespace/id joined,
plus "debug" when requested.  Written from the spec's words for comparison
with the source-derived SocketAddress. -/
def specDigestPath (root ns id : String) (debug : Bool) : String :=
  let p := filepathJoin [root, ns, id]
  if debug then filepathJoin [p, "debug"] else p

/-- Go strconv.ParseUint(s, 10, 0) on a 64-bit platform: decimal digits
only, no sign; `none` on empty input, a non-digit, or overflow past
2^64 - 1. -/
def parseUint10 (s : String) : Option Nat :=
  if s.data = [] then none
  else if s.data.all (fun c => 48 ≤ c.toNat && c.toNat ≤ 57) then
    let v := s.data.foldl (fun acc c => acc * 10 + (c.toNat - 48)) 0
    if v < 18446744073709551616 then some v else none
  else none

/-- Action performed by AnonDialer and its helpers: either one concrete
connection attempt, or an error before any attempt. -/
inductive DialResult where
  | unixDial (path : String) (timeout : Nat)
  | vsockConnect (contextID port : Nat)
  | hybridConnect (path : String) (port : Nat) (timeout : Nat)
  | err (msg : String)
deriving DecidableEq, Repr

/-- True exactly for the error outcome (no connection attempted). -/
def DialResult.isErr : DialResult → Bool
  | .err _ => true
  | _ => false

/-- Port handling of Go dialVsock: parse the port as an unsigned decimal
and reject values above MaxUint32 before connecting. -/
def vsockCheckPort (contextID : Nat) (portString : String) : DialResult :=
  match parseUint10 portString with
  | none => .err ("failed to parse vsock port " ++ portString)
  | some port =>
    if port > 4294967295 then .err "vsock port is invalid"
    else .vsockConnect contextID port

/-- Body of Go dialVsock after the colon split: parse the context id as an
unsigned decimal, reject values above MaxUint32, then handle the port. -/
def vsockParse (contextIDString portString : String) : DialResult :=
  match parseUint10 contextIDString with
  | none => .err ("failed to parse vsock context id " ++ contextIDString)
  | some contextID =>
    if contextID > 4294967295 then .err "vsock context id is invalid"
    else vsockCheckPort contextID portString

/-- Go dialVsock: split "<contextID>:<port>" on the first colon, parse both
as unsigned decimals, reject values above MaxUint32, else connect. -/
def dialVsock (address : String) : DialResult :=
  match strCut address ":" with
  | none => .err ("invalid vsock address " ++ address)
  | some (contextIDString, portString) => vsockParse contextIDString portString

/-- Body of Go dialHybridVsock after the colon split: parse the port,
reject above MaxUint32, else run the hybrid dialer. -/
def hvsockParse (addr portString : String) (timeout : Nat) : DialResult :=
  match parseUint10 portString with
  | none => .err ("failed to parse hybrid vsock port " ++ portString)
  | some port =>
    if port > 4294967295 then .err "hybrid vsock port is invalid"
    else .hybridConnect addr port timeout

/-- Go dialHybridVsock: split "<unix-path>:<port>" on the first colon,
parse the port, reject above MaxUint32, else run the hybrid dialer. -/
def dialHybridVsock (address : String) (timeout : Nat) : DialResult :=
  match strCut address ":" with
  | none => .err ("invalid hybrid vsock address " ++ address)
  | some (addr, portString) => hvsockParse addr portString timeout

/-- Go AnonDialer: cut on "://"; no separator means a unix dial of
socket(address).path(); otherwise dispatch on the scheme, the unix scheme
again dialing socket(address).path() of the full address. -/
def AnonDialer (address : String) (timeout : Nat) : DialResult :=
  match strCut address "://" with
  | none => .unixDial (sockPath address) timeout
  | some (proto, addr) =>
    if proto = "vsock" then dialVsock addr
    else if proto = "hvsock" then dialHybridVsock addr timeout
    else if proto = "unix" then .unixDial (sockPath address) timeout
    else .err ("unsupported protocol: " ++ proto)

/-- Go RemoveSocket, as the filesystem action it requests: `some p` means
os.Remove(p) is invoked (its error returned as-is), `none` means the
function returns nil without touching the filesystem. -/
def RemoveSocketAct (address : String) : Option String :=
  if !(sockIsAbstract address) then some (sockPath address) else none

/-! ### Go hybridVsockDialer handshake loop

The loop writes "CONNECT <port>\n" and reads one response line per attempt.
The environment scripts the outcome of each read; time is counted in the
same units as `timeout`, attempts themselves taking no time, so the elapsed
time before attempt k is k * (timeout / 10) from the k sleeps performed.
The select between the read result and the timeout channel is resolved in
favour of the timeout whenever the timer has fired. -/

/-- Outcome of reading one handshake response line. -/
inductive ReadOutcome where
  | ok                  -- line containing "OK"
  | bad (resp : String) -- line not containing "OK"
  | eof                 -- read failed with io.EOF
  | readFail            -- read failed with any other error
deriving DecidableEq, Repr

/-- Result of the hybrid vsock handshake loop. -/
inductive HvResult where
  | connected
  | protoErr (resp : String)
  | readErr
  | timedOut
  | scriptEnd
deriving DecidableEq, Repr

/-- Inner loop of hybridVsockDialer: one iteration per scripted read. -/
def hybridLoop (retryInterval timeout : Nat) :
    List ReadOutcome → Nat → HvResult
  | [], _ => .scriptEnd
  | o :: rest, elapsed =>
    if elapsed ≥ timeout then .timedOut
    else
      match o with
      | .ok => .connected
      | .bad resp => .protoErr resp
      | .eof => hybridLoop retryInterval timeout rest (elapsed + retryInterval)
      | .readFail => .readErr

/-- Go hybridVsockDialer against a scripted server: retryInterval is
timeout / 10, elapsed time starts at zero. -/
def hybridVsockRun (script : List ReadOutcome) (timeout : Nat) : HvResult :=
  hybridLoop (timeout / 10) timeout script 0

/-! ### Effect-trace models of the listener-creating functions -/

/-- Filesystem / listener effects, in the order the code performs them. -/
inductive FsEff where
  | mkdirAll (dir : String) (perm : Nat)
  | unlink (path : String)
  | listen (path : String)
  | chmod (path : String) (perm : Nat)
  | removeFile (path : String)
  | closeListener
deriving DecidableEq, Repr

/-- Environment for NewSocket: the platform and the outcome of each system
call it may make. -/
structure NewSocketEnv where
  goos : String
  mkdirFails : Bool
  listenFails : Bool
  chmodFails : Bool
deriving DecidableEq, Repr

/-- Go shim.NewSocket: perm 0600 (0700 on darwin); non-abstract addresses
get MkdirAll(Dir(path), perm) first; listen; non-abstract addresses then
get Chmod(path, perm), a chmod failure removing the file and closing the
listener before the error returns.  No other filesystem calls are made. -/
def NewSocket (env : NewSocketEnv) (address : String) :
    Except String Unit × List FsEff :=
  let path := sockPath address
  let isAbstract := sockIsAbstract address
  let perm : Nat := if env.goos = "darwin" then 0o700 else 0o600
  if isAbstract then
    if env.listenFails then (.error "listen", [.listen path])
    else (.ok (), [.listen path])
  else
    if env.mkdirFails then
      (.error ("mkdir failed for " ++ path), [.mkdirAll (filepathDir path) perm])
    else
      let t1 := [FsEff.mkdirAll (filepathDir path) perm, FsEff.listen path]
      if env.listenFails then (.error "listen", t1)
      else if env.chmodFails then
        (.error ("chmod failed for " ++ path),
         t1 ++ [.chmod path perm, .removeFile path, .closeListener])
      else (.ok (), t1 ++ [.chmod path perm])

/-- Environment for sys.CreateUnixSocket. -/
structure CusEnv where
  mkdirFails : Bool
  unlinkFailsNotMissing : Bool  -- Unlink error other than IsNotExist
  listenFails : Bool
deriving DecidableEq, Repr

/-- Go sys.CreateUnixSocket: reject paths longer than 104 bytes before any
other work; then MkdirAll(Dir(path), 0660), Unlink(path) ignoring
not-exist, and net.Listen("unix", path). -/
def CreateUnixSocket (env : CusEnv) (path : String) :
    Except String Unit × List FsEff :=
  if path.utf8ByteSize > 104 then
    (.error ("\"" ++ path ++ "\": unix socket path too long (> 104)"), [])
  else if env.mkdirFails then
    (.error "mkdir", [.mkdirAll (filepathDir path) 0o660])
  else
    let t1 := [FsEff.mkdirAll (filepathDir path) 0o660, FsEff.unlink path]
    if env.unlinkFailsNotMissing then (.error "unlink", t1)
    else if env.listenFails then (.error "listen", t1 ++ [.listen path])
    else (.ok (), t1 ++ [.listen path])

/-! ### sys.GetLocalListener (socket_unix.go, package sys) -/

/-- Shape of the error value produced by os.Chown when it fails, as probed
by the code: errors.As to *fs.PathError, the Op field, and whether the
cause is syscall.EPERM. -/
structure ChownErrShape where
  isPathError : Bool
  op : String
  isEPERM : Bool
deriving DecidableEq, Repr

/-- Environment for GetLocalListener: platform, real uid, outcomes of each
step, and — never read by the code — whether the socket file already
existed with the desired ownership before the call. -/
structure GllEnv where
  goos : String
  uid : Nat
  mkdirAsFails : Bool
  createFails : Bool
  chmodFails : Bool
  chownErr : Option ChownErrShape
  preExistedWithDesiredOwner : Bool
deriving DecidableEq, Repr

/-- Outcome of GetLocalListener. -/
inductive GllOutcome where
  | okListener            -- returned the listener, chown succeeded
  | okSwallowedChownErr   -- returned the listener despite a chown error
  | errNoListener         -- failed before or at listener creation
  | errListenerClosed     -- failed after creation; listener was closed
deriving DecidableEq, Repr

/-- Condition under which the code swallows a chown failure: non-root,
darwin, the error is a *fs.PathError whose Op is "chown" and whose cause
is EPERM.  The pre-existing-ownership stat check in the source is
commented out and never executes. -/
def gllSwallows (env : GllEnv) (e : ChownErrShape) : Bool :=
  env.uid != 0 && env.goos = "darwin" && e.isPathError && e.op = "chown" && e.isEPERM

/-- Go sys.GetLocalListener: mkdirAs the parent, CreateUnixSocket, Chmod
0660 (failure closes the listener), then Chown; a chown failure is
swallowed exactly under `gllSwallows`, otherwise the listener is closed
and the error propagates. -/
def GetLocalListener (env : GllEnv) : GllOutcome :=
  if env.mkdirAsFails then .errNoListener
  else if env.createFails then .errNoListener
  else if env.chmodFails then .errListenerClosed
  else
    match env.chownErr with
    | none => .okListener
    | some e =>
      if gllSwallows env e then .okSwallowedChownErr else .errListenerClosed

/-! ### shim.run serving phase after plugin loading (shim.go) -/

/-- One loaded plugin instance, described by the capabilities the bootstrap
probes for and whether its RegisterTTRPC call would fail. -/
structure PluginInst where
  isTTRPCService : Bool
  isUnaryOptioner : Bool
  registerFails : Bool
deriving DecidableEq, Repr

/-- Bootstrap effects after plugin loading. -/
inductive BootEff where
  | createServer
  | registerService (idx : Nat)
  | openListener
deriving DecidableEq, Repr

/-- Registration loop over the collected ttrpc services; effects produced
up to and including the failing call. -/
def registerAll (idx : Nat) : List PluginInst → Except String Unit × List BootEff
  | [] => (.ok (), [])
  | p :: rest =>
    if p.registerFails then (.error "failed to register service", [.registerService idx])
    else
      let (r, t) := registerAll (idx + 1) rest
      (r, .registerService idx :: t)

/-- Go shim.run after the plugin loop: collect TTRPCService-capable
instances; zero of them aborts with the service-discovery error before the
server is created or any listener opened; otherwise create the server,
register every service, and (in serve) open the socket listener. -/
def runServePhase (insts : List PluginInst) : Except String Unit × List BootEff :=
  let ttrpcServices := insts.filter (·.isTTRPCService)
  if ttrpcServices.length = 0 then (.error "required that ttrpc service", [])
  else
    let (r, t) := registerAll 0 ttrpcServices
    match r with
    | .error e => (.error e, BootEff.createServer :: t)
    | .ok _ => (.ok (), BootEff.createServer :: t ++ [.openListener])

/-! ### package mount (darwin): getDawinMountSystem and Mount.mount -/

/-- Go getDawinMountSystem: read DARWIN_MOUNT_SYSTEM (passed here as the
environment value), default to "macfuse" when empty, reject anything that
is not one of the three named backends. -/
def getDawinMountSystem (envVal : String) : Except String String :=
  let mountSystem := if envVal = "" then "macfuse" else envVal
  if mountSystem ≠ "fuse-t" && mountSystem ≠ "macfuse" && mountSystem ≠ "macfuse-fskit" then
    .error ("invalid DARWIN_MOUNT_SYSTEM: " ++ mountSystem)
  else .ok mountSystem

/-- Go Mount struct (fields used by mount). -/
structure GoMount where
  mtype : String
  source : String
  options : List String
deriving DecidableEq, Repr

/-- Effect of Mount.mount: one external command execution. -/
inductive MountEff where
  | execCmd (name : String) (args : List String)
deriving DecidableEq, Repr

/-- Argument list built by Mount.mount: "-o <opt>" pairs with rbind
dropped, the fskit backend option for bindfs under macfuse-fskit, then
source and target. -/
def mountArgs (m : GoMount) (target mountSystem commandName : String) : List String :=
  let args := m.options.foldl
    (fun acc o => if o = "rbind" then acc else acc ++ ["-o", o]) []
  let args :=
    if commandName = "bindfs" && mountSystem = "macfuse-fskit" then
      args ++ ["-o", "backend=fskit"]
    else args
  args ++ [m.source, target]

/-- Go Mount.mount (darwin variant): resolve the backend selector first,
returning its error before any command runs; bind mounts run bindfs,
anything else mount_<type>; one CombinedOutput execution, no retry. -/
def mountRun (envVal : String) (execFails : Bool) (m : GoMount) (target : String) :
    Except String Unit × List MountEff :=
  match getDawinMountSystem envVal with
  | .error e => (.error e, [])
  | .ok mountSystem =>
    let commandName := if m.mtype = "bind" then "bindfs" else "mount_" ++ m.mtype
    let args := mountArgs m target mountSystem commandName
    if execFails then
      (.error (commandName ++ " failed"), [.execCmd commandName args])
    else (.ok (), [.execCmd commandName args])

/-! ### Helper lemmas on the string and socket functions -/

/-- charsPre decides the list prefix relation. -/
theorem charsPre_iff : ∀ (l₁ l₂ : List Char), charsPre l₁ l₂ = true ↔ l₁ <+: l₂
  | [], l₂ => by simp [charsPre]
  | a :: as, [] => by simp [charsPre]
  | a :: as, b :: bs => by
    simp [charsPre, charsPre_iff as bs, List.cons_prefix_cons]

/-- Computation of splitOnceAux on a string starting with the unix scheme:
the first "://" occurrence is the one at position 4. -/
theorem splitOnceAux_unixScheme (l : List Char) :
    splitOnceAux [':', '/', '/'] ('u' :: 'n' :: 'i' :: 'x' :: ':' :: '/' :: '/' :: l) =
      some (['u', 'n', 'i', 'x'], l) := rfl

/-- Cutting "unix://" ++ addr on "://" always yields ("unix", addr). -/
theorem strCut_unixScheme (addr : String) :
    strCut ("unix://" ++ addr) "://" = some ("unix", addr) := by
  cases addr with
  | mk l => rfl

/-- If an address contains no "://" then it does not start with
"unix://". -/
theorem not_unixSchemed_of_cut_none {addr : String}
    (h : strCut addr "://" = none) :
    charsPre "unix://".data addr.data = false := by
  cases hp : charsPre "unix://".data addr.data with
  | false => rfl
  | true =>
    exfalso
    have hpre : "unix://".data <+: addr.data := (charsPre_iff _ _).mp hp
    obtain ⟨t, ht⟩ := hpre
    have haddr : addr = String.mk ('u' :: 'n' :: 'i' :: 'x' :: ':' :: '/' :: '/' :: t) :=
      (congrArg String.mk ht).symm
    rw [haddr] at h
    rw [show strCut (String.mk ('u' :: 'n' :: 'i' :: 'x' :: ':' :: '/' :: '/' :: t)) "://" =
          some ("unix", String.mk t) from rfl] at h
    exact Option.noConfusion h

/-- sockPath on an address not starting with the unix scheme prepends the
NUL abstract-socket marker. -/
theorem sockPath_of_not_schemed {s : String}
    (h : charsPre "unix://".data s.data = false) :
    sockPath s = "\x00" ++ s := by
  unfold sockPath strTrimPre
  rw [h]
  simp

/-- sockPath on a unix-schemed address strips the scheme. -/
theorem sockPath_unixSchemed (addr : String) :
    sockPath ("unix://" ++ addr) = addr := by
  cases addr with
  | mk l =>
    show sockPath (String.mk ('u' :: 'n' :: 'i' :: 'x' :: ':' :: '/' :: '/' :: l)) = String.mk l
    unfold sockPath strTrimPre
    simp [charsPre]
    intro hlen
    exact absurd hlen (by omega)

/-- sockPath on a schemed address is exactly the trim of the scheme. -/
theorem sockPath_of_schemed {s : String}
    (h : charsPre "unix://".data s.data = true) :
    sockPath s = strTrimPre s "unix://" := by
  have h7 : "unix://".data.length = 7 := rfl
  have hlen : 7 ≤ s.data.length := by
    have hp := (charsPre_iff _ _).mp h
    have := hp.length_le
    rw [h7] at this
    exact this
  unfold sockPath strTrimPre
  rw [h]
  simp only [if_true]
  rw [if_neg]
  simp only [List.length_drop, h7]
  omega

/-! ### Claim C1 -/

/-- C1 counterexample: at the concrete bare address "a" and timeout 7,
AnonDialer does not perform a unix dial of the whole string "a" (it dials
the NUL-prefixed abstract name), and it does not behave identically to
AnonDialer of "unix://" ++ "a". -/
theorem C1_counterexample :
    AnonDialer "a" 7 ≠ DialResult.unixDial "a" 7 ∧
    AnonDialer "a" 7 ≠ AnonDialer ("unix://" ++ "a") 7 := by
  constructor
  · decide
  · decide

/-- C1 amended: for every address containing no "://" separator and every
timeout, AnonDialer performs a unix dial of the NUL-prefixed whole string
(the address is treated as abstract), while AnonDialer of the same string
with "unix://" prepended performs a unix dial of the bare string with the
same timeout; the two dials therefore differ exactly by the NUL
abstract-socket marker on the path. -/
theorem C1_amended (addr : String) (t : Nat) (h : strCut addr "://" = none) :
    AnonDialer addr t = DialResult.unixDial ("\x00" ++ addr) t ∧
    AnonDialer ("unix://" ++ addr) t = DialResult.unixDial addr t := by
  constructor
  · unfold AnonDialer
    rw [h, sockPath_of_not_schemed (not_unixSchemed_of_cut_none h)]
  · unfold AnonDialer
    rw [strCut_unixScheme]
    show DialResult.unixDial (sockPath ("unix://" ++ addr)) t = DialResult.unixDial addr t
    rw [sockPath_unixSchemed]

/-- C1 witness: the amended statement evaluated at address "a", timeout 7. -/
theorem C1_witness :
    strCut "a" "://" = none ∧
    AnonDialer "a" 7 = DialResult.unixDial ("\x00" ++ "a") 7 ∧
    AnonDialer ("unix://" ++ "a") 7 = DialResult.unixDial "a" 7 :=
  ⟨by decide, C1_amended "a" 7 (by decide)⟩

/-! ### Claim C6 -/

/-- C6: RemoveSocket never touches the filesystem and never errors for an
abstract address, and for a non-abstract address it requests exactly the
deletion of the file at the address with the unix:// scheme stripped. -/
theorem C6_remove_socket (address : String) :
    (sockIsAbstract address = true → RemoveSocketAct address = none) ∧
    (sockIsAbstract address = false →
      RemoveSocketAct address = some (strTrimPre address "unix://")) := by
  constructor
  · intro h
    unfold RemoveSocketAct
    rw [h]
    rfl
  · intro h
    unfold RemoveSocketAct
    rw [h]
    simp only [Bool.not_false, if_true]
    have hpre : charsPre "unix://".data address.data = true := by
      unfold sockIsAbstract strHasPre at h
      cases hc : charsPre "unix://".data address.data with
      | false => rw [hc] at h; exact absurd h (by decide)
      | true => rfl
    rw [sockPath_of_schemed hpre]

/-- C6 witness: evaluated at the abstract address "abc" and at the
non-abstract address "unix:///tmp/x". -/
theorem C6_witness :
    RemoveSocketAct "abc" = none ∧ RemoveSocketAct "unix:///tmp/x" = some "/tmp/x" :=
  ⟨(C6_remove_socket "abc").1 (by decide),
   ((C6_remove_socket "unix:///tmp/x").2 (by decide)).trans (by decide)⟩

/-! ### Claim C2 -/

/-- C2 counterexample: with socket-root-dir "/run/containerd" (and the
configured address flag equal to that same root), namespace "default", id
"abc", debug false, SocketAddress does not return
unix:///run/containerd/s/(hex digest): the prefix of the returned address
is the parent directory of the address flag, here "/run". -/
theorem C2_counterexample :
    SocketAddress "/run/containerd" "/run/containerd" "default" "abc" false ≠
      "unix:///run/containerd/s/" ++ sha256hex "/run/containerd/default/abc" := by
  decide

/-- C2 amended: SocketAddress returns exactly
unix://(Dir addressFlag)/s/(lowercase hex SHA-256 of Join(root, ns, id)
plus "debug" when set) — the root of the returned address is the parent
directory of the configured address flag, not the socket-root parameter;
when the two coincide the claimed shape holds, and in the concrete
scenario with addressFlag "/run/containerd/containerd.sock" the address is
unix:///run/containerd/s/(sha256 of "/run/containerd/default/abc").
Purity (identical inputs give identical output) is inherent: the function
is deterministic in (addressFlag, root, ns, id, debug). -/
theorem C2_amended (addressFlag root ns id : String) (debug : Bool) :
    (SocketAddress addressFlag root ns id debug =
      "unix://" ++ filepathJoin [filepathDir addressFlag, "s"] ++ "/" ++
        sha256hex (specDigestPath root ns id debug)) ∧
    (filepathDir addressFlag = root →
      SocketAddress addressFlag root ns id debug =
        "unix://" ++ filepathJoin [root, "s"] ++ "/" ++
          sha256hex (specDigestPath root ns id debug)) ∧
    (SocketAddress "/run/containerd/containerd.sock" "/run/containerd" "default" "abc" false =
      "unix:///run/containerd/s/" ++ sha256hex "/run/containerd/default/abc") := by
  refine ⟨rfl, ?_, by decide⟩
  intro hroot
  rw [show SocketAddress addressFlag root ns id debug =
      "unix://" ++ filepathJoin [filepathDir addressFlag, "s"] ++ "/" ++
        sha256hex (specDigestPath root ns id debug) from rfl, hroot]

/-- C2 witness: the amended statement evaluated at addressFlag
"/run/containerd/containerd.sock" and root "/run/containerd", where the
flag's parent directory equals the root. -/
theorem C2_witness :
    filepathDir "/run/containerd/containerd.sock" = "/run/containerd" ∧
    SocketAddress "/run/containerd/containerd.sock" "/run/containerd" "default" "abc" false =
      "unix://" ++ filepathJoin ["/run/containerd", "s"] ++ "/" ++
        sha256hex (specDigestPath "/run/containerd" "default" "abc" false) :=
  ⟨by decide,
   (C2_amended "/run/containerd/containerd.sock" "/run/containerd" "default" "abc" false).2.1
     (by decide)⟩

/-! ### Claim C3 -/

/-- C3 counterexample: at the concrete non-abstract address
"unix:///tmp/x" with every system call succeeding on a non-darwin
platform, the trace of NewSocket is mkdir, listen, chmod — it contains no
removal (neither os.Remove nor unlink) of a stale file before binding. -/
theorem C3_counterexample :
    (NewSocket ⟨"linux", false, false, false⟩ "unix:///tmp/x").2 =
      [FsEff.mkdirAll "/tmp" 0o600, FsEff.listen "/tmp/x", FsEff.chmod "/tmp/x" 0o600] ∧
    FsEff.removeFile "/tmp/x" ∉ (NewSocket ⟨"linux", false, false, false⟩ "unix:///tmp/x").2 ∧
    FsEff.unlink "/tmp/x" ∉ (NewSocket ⟨"linux", false, false, false⟩ "unix:///tmp/x").2 := by
  refine ⟨by decide, by decide, by decide⟩

/-- C3 amended: for every non-abstract address NewSocket creates the
parent directory with mode 0600 (0700 on darwin), binds, then chmods the
bound file to the same mode — with no stale-file removal before binding;
a chmod failure removes the just-created file and closes the listener
before the error is returned; for every abstract address directory
creation and chmod are skipped entirely. -/
theorem C3_amended (env : NewSocketEnv) (address : String) :
    (sockIsAbstract address = false → env.mkdirFails = false →
      env.listenFails = false → env.chmodFails = false →
      NewSocket env address =
        (.ok (),
         [FsEff.mkdirAll (filepathDir (sockPath address))
            (if env.goos = "darwin" then 0o700 else 0o600),
          FsEff.listen (sockPath address),
          FsEff.chmod (sockPath address) (if env.goos = "darwin" then 0o700 else 0o600)])) ∧
    (sockIsAbstract address = false → env.mkdirFails = false →
      env.listenFails = false → env.chmodFails = true →
      NewSocket env address =
        (.error ("chmod failed for " ++ sockPath address),
         [FsEff.mkdirAll (filepathDir (sockPath address))
            (if env.goos = "darwin" then 0o700 else 0o600),
          FsEff.listen (sockPath address),
          FsEff.chmod (sockPath address) (if env.goos = "darwin" then 0o700 else 0o600),
          FsEff.removeFile (sockPath address),
          FsEff.closeListener])) ∧
    (env.chmodFails = false →
      FsEff.unlink (sockPath address) ∉ (NewSocket env address).2 ∧
      FsEff.removeFile (sockPath address) ∉ (NewSocket env address).2) ∧
    (sockIsAbstract address = true →
      (NewSocket env address).2 = [FsEff.listen (sockPath address)]) := by
  constructor
  · intro ha hm hl hc
    unfold NewSocket
    rw [ha, hm, hl, hc]
    rfl
  constructor
  · intro ha hm hl hc
    unfold NewSocket
    rw [ha, hm, hl, hc]
    rfl
  constructor
  · intro hc
    cases ha : sockIsAbstract address <;>
      cases hm : env.mkdirFails <;>
        cases hl : env.listenFails <;>
          simp [NewSocket, ha, hm, hl, hc]
  · intro ha
    unfold NewSocket
    rw [ha]
    cases env.listenFails <;> rfl

/-- C3 witness: the amended statement evaluated at the non-abstract
address "unix:///tmp/x" on linux with all calls succeeding, and at the
abstract address "abc". -/
theorem C3_witness :
    NewSocket ⟨"linux", false, false, false⟩ "unix:///tmp/x" =
      (.ok (), [FsEff.mkdirAll "/tmp" 0o600, FsEff.listen "/tmp/x",
                FsEff.chmod "/tmp/x" 0o600]) ∧
    (NewSocket ⟨"linux", false, false, false⟩ "abc").2 = [FsEff.listen "\x00abc"] :=
  ⟨(C3_amended ⟨"linux", false, false, false⟩ "unix:///tmp/x").1 (by decide) rfl rfl rfl,
   (C3_amended ⟨"linux", false, false, false⟩ "abc").2.2.2 (by decide)⟩

/-! ### Claim C4 -/

/-- Unfolding of the handshake loop at an OK response. -/
theorem hybridLoop_ok (ri t e : Nat) (rest : List ReadOutcome) :
    hybridLoop ri t (ReadOutcome.ok :: rest) e =
      (if e ≥ t then HvResult.timedOut else HvResult.connected) := rfl

/-- Unfolding of the handshake loop at a non-OK response line. -/
theorem hybridLoop_bad (ri t e : Nat) (resp : String) (rest : List ReadOutcome) :
    hybridLoop ri t (ReadOutcome.bad resp :: rest) e =
      (if e ≥ t then HvResult.timedOut else HvResult.protoErr resp) := rfl

/-- Unfolding of the handshake loop at a non-EOF read failure. -/
theorem hybridLoop_readFail (ri t e : Nat) (rest : List ReadOutcome) :
    hybridLoop ri t (ReadOutcome.readFail :: rest) e =
      (if e ≥ t then HvResult.timedOut else HvResult.readErr) := rfl

/-- Unfolding of the handshake loop at an EOF: close, sleep the retry
interval, and retry with the elapsed time increased. -/
theorem hybridLoop_eof (ri t e : Nat) (rest : List ReadOutcome) :
    hybridLoop ri t (ReadOutcome.eof :: rest) e =
      (if e ≥ t then HvResult.timedOut else hybridLoop ri t rest (e + ri)) := rfl

/-- Against a server answering EOF on every attempt until a final OK, the
handshake loop connects exactly when the accumulated sleep time stays
below the timeout, and otherwise times out. -/
theorem hybridLoop_eof_script (ri t : Nat) :
    ∀ (N : Nat) (e : Nat),
      hybridLoop ri t (List.replicate N ReadOutcome.eof ++ [ReadOutcome.ok]) e =
        (if e + N * ri < t then HvResult.connected else HvResult.timedOut) := by
  intro N
  induction N with
  | zero =>
    intro e
    rw [List.replicate_zero, List.nil_append, hybridLoop_ok, Nat.zero_mul]
    by_cases he : e ≥ t
    · rw [if_pos he, if_neg (by omega)]
    · rw [if_neg he, if_pos (by omega)]
  | succ n ih =>
    intro e
    rw [List.replicate_succ, List.cons_append, hybridLoop_eof, ih, Nat.succ_mul]
    by_cases he : e ≥ t
    · rw [if_pos he, if_neg (by omega)]
    · rw [if_neg he]
      by_cases hq : e + ri + n * ri < t
      · rw [if_pos hq, if_pos (by omega)]
      · rw [if_neg hq, if_neg (by omega)]

/-- C4: after writing CONNECT (port), a response containing "OK" connects;
any other response is a hard protocol error, never retried; a non-EOF read
failure propagates immediately; and against a server answering EOF N times
then OK, the dial (with retryInterval = timeout/10 and elapsed time
accumulated across the sleeps) connects iff N * (timeout/10) < timeout and
otherwise fails with the timeout error. -/
theorem C4_hybrid_handshake (t N : Nat) (resp : String) (rest : List ReadOutcome)
    (ht : 0 < t) :
    hybridVsockRun (ReadOutcome.ok :: rest) t = HvResult.connected ∧
    hybridVsockRun (ReadOutcome.bad resp :: rest) t = HvResult.protoErr resp ∧
    hybridVsockRun (ReadOutcome.readFail :: rest) t = HvResult.readErr ∧
    hybridVsockRun (List.replicate N ReadOutcome.eof ++ [ReadOutcome.ok]) t =
      (if N * (t / 10) < t then HvResult.connected else HvResult.timedOut) := by
  refine ⟨?_, ?_, ?_, ?_⟩
  · unfold hybridVsockRun
    rw [hybridLoop_ok, if_neg (by omega)]
  · unfold hybridVsockRun
    rw [hybridLoop_bad, if_neg (by omega)]
  · unfold hybridVsockRun
    rw [hybridLoop_readFail, if_neg (by omega)]
  · unfold hybridVsockRun
    rw [hybridLoop_eof_script (t / 10) t N 0, Nat.zero_add]

/-- C4 witness: timeout 10 (retryInterval 1); two EOFs then OK connects
since 2 * 1 < 10, and ten EOFs then OK fails with the timeout error. -/
theorem C4_witness :
    (0 < 10 ∧
      hybridVsockRun (List.replicate 2 ReadOutcome.eof ++ [ReadOutcome.ok]) 10 =
        (if 2 * (10 / 10) < 10 then HvResult.connected else HvResult.timedOut)) ∧
    hybridVsockRun (List.replicate 10 ReadOutcome.eof ++ [ReadOutcome.ok]) 10 =
      (if 10 * (10 / 10) < 10 then HvResult.connected else HvResult.timedOut) :=
  ⟨⟨by decide, (C4_hybrid_handshake 10 2 "NO" [] (by decide)).2.2.2⟩,
   (C4_hybrid_handshake 10 10 "NO" [] (by decide)).2.2.2⟩

/-! ### Claim C5 -/

/-- A component string is numeric when it is a non-empty run of decimal
digits. -/
def numericStr (s : String) : Bool :=
  s.data ≠ [] && s.data.all (fun c => 48 ≤ c.toNat && c.toNat ≤ 57)

/-- Decimal value of a digit string. -/
def decimalVal (s : String) : Nat :=
  s.data.foldl (fun acc c => acc * 10 + (c.toNat - 48)) 0

/-- A vsock address component is bad when it is non-numeric or its decimal
value exceeds 2^32 - 1. -/
def badVsockComponent (s : String) : Prop :=
  numericStr s = false ∨ decimalVal s > 4294967295

/-- Parsing a bad component either fails outright or yields a value above
MaxUint32. -/
theorem parseUint10_of_bad {s : String} (h : badVsockComponent s) :
    parseUint10 s = none ∨
      ∃ v, parseUint10 s = some v ∧ v > 4294967295 := by
  unfold parseUint10
  rcases h with h | h
  · unfold numericStr at h
    by_cases he : s.data = []
    · left
      rw [if_pos he]
    · rw [if_neg he]
      simp only [he, decide_not] at h
      simp only [Bool.and_eq_false_iff] at h
      rcases h with h | h
      · simp [he] at h
      · left
        rw [h]
        rfl
  · by_cases he : s.data = []
    · exfalso
      unfold decimalVal at h
      rw [he] at h
      simp at h
    · rw [if_neg he]
      by_cases hall : s.data.all (fun c => 48 ≤ c.toNat && c.toNat ≤ 57)
      · rw [if_pos hall]
        by_cases hv : decimalVal s < 18446744073709551616
        · right
          refine ⟨decimalVal s, ?_, h⟩
          show (if decimalVal s < 18446744073709551616 then some (decimalVal s)
                else none) = some (decimalVal s)
          rw [if_pos hv]
        · left
          show (if decimalVal s < 18446744073709551616 then some (decimalVal s)
                else none) = none
          rw [if_neg hv]
      · rw [if_neg hall]
        exact Or.inl rfl

/-- A bad port makes the vsock port check fail for every context id. -/
theorem vsockCheckPort_of_bad {p : String} (cid : Nat) (h : badVsockComponent p) :
    (vsockCheckPort cid p).isErr = true := by
  rcases parseUint10_of_bad h with hp | ⟨v, hp, hv⟩
  · simp [vsockCheckPort, DialResult.isErr, hp]
  · simp [vsockCheckPort, DialResult.isErr, hp, hv]

/-- C5: whenever the context-id or port component (the strings produced by
cutting the opaque address on its first colon) is non-numeric or has value
above 2^32 - 1, dialVsock returns a hard parse error and attempts no
connection; dialHybridVsock does the same for its port component, at every
timeout. -/
theorem C5_vsock_parse_rejects (address cidS portS : String) (t : Nat)
    (hcut : strCut address ":" = some (cidS, portS)) :
    (badVsockComponent cidS ∨ badVsockComponent portS →
      (dialVsock address).isErr = true) ∧
    (badVsockComponent portS → (dialHybridVsock address t).isErr = true) := by
  have hd : dialVsock address = vsockParse cidS portS := by
    unfold dialVsock
    rw [hcut]
  have hh : dialHybridVsock address t = hvsockParse cidS portS t := by
    unfold dialHybridVsock
    rw [hcut]
  constructor
  · intro hbad
    rw [hd]
    rcases hbad with hb | hb
    · rcases parseUint10_of_bad hb with hp | ⟨v, hp, hv⟩
      · simp [vsockParse, DialResult.isErr, hp]
      · simp [vsockParse, DialResult.isErr, hp, hv]
    · cases hp : parseUint10 cidS with
      | none => simp [vsockParse, DialResult.isErr, hp]
      | some cid =>
        by_cases hc : cid > 4294967295
        · simp [vsockParse, DialResult.isErr, hp, hc]
        · simp only [vsockParse, hp]
          rw [if_neg hc]
          exact vsockCheckPort_of_bad cid hb
  · intro hbad
    rw [hh]
    rcases parseUint10_of_bad hbad with hq | ⟨v, hq, hv⟩
    · simp [hvsockParse, DialResult.isErr, hq]
    · simp [hvsockParse, DialResult.isErr, hq, hv]

/-- C5 witness: the address "x:4294967296" has a non-numeric context id
and an out-of-range port; both dialers reject it without connecting. -/
theorem C5_witness :
    strCut "x:4294967296" ":" = some ("x", "4294967296") ∧
    (dialVsock "x:4294967296").isErr = true ∧
    (dialHybridVsock "x:4294967296" 3).isErr = true :=
  ⟨by decide,
   (C5_vsock_parse_rejects "x:4294967296" "x" "4294967296" 3 (by decide)).1
     (Or.inl (Or.inl (by decide))),
   (C5_vsock_parse_rejects "x:4294967296" "x" "4294967296" 3 (by decide)).2
     (Or.inr (by decide))⟩

/-! ### Claim C7 -/

/-- C7: when plugin loading yields zero service-capable (TTRPCService)
instances, the serving bootstrap returns the service-discovery error
"required that ttrpc service" with an empty effect trace — in particular
before creating the server or opening any listener. -/
theorem C7_no_services_aborts (insts : List PluginInst)
    (h : insts.filter (·.isTTRPCService) = []) :
    runServePhase insts = (.error "required that ttrpc service", []) ∧
    BootEff.openListener ∉ (runServePhase insts).2 := by
  have hrun : runServePhase insts = (.error "required that ttrpc service", []) := by
    unfold runServePhase
    rw [h]
    rfl
  refine ⟨hrun, ?_⟩
  rw [hrun]
  simp

/-- C7 witness: a plugin set with one instance lacking the service
capability aborts with the service-discovery error and no effects. -/
theorem C7_witness :
    runServePhase [⟨false, true, false⟩] = (.error "required that ttrpc service", []) :=
  (C7_no_services_aborts [⟨false, true, false⟩] (by decide)).1

/-! ### Claim C8 -/

/-- C8 counterexample: on darwin, non-root, with the chown failing as a
path error with operation "chown" and cause EPERM, GetLocalListener
swallows the error and returns the listener even though the socket did not
pre-exist with the desired ownership — the pre-existing-ownership
condition of the claim is never checked by the code. -/
theorem C8_counterexample :
    GetLocalListener
        ⟨"darwin", 501, false, false, false, some ⟨true, "chown", true⟩, false⟩ =
      GllOutcome.okSwallowedChownErr ∧
    (GllEnv.preExistedWithDesiredOwner
        ⟨"darwin", 501, false, false, false, some ⟨true, "chown", true⟩, false⟩) = false := by
  exact ⟨by decide, by decide⟩

/-- C8 amended: when the earlier steps succeed and chown fails,
GetLocalListener swallows the failure and returns the listener exactly
when the error is a permission-denied (EPERM) chown-operation path error,
the platform is darwin, and the process is non-root — the code never
examines whether the socket pre-existed with the desired ownership; in
every other case the listener is closed and the error is propagated. -/
theorem C8_amended (env : GllEnv) (e : ChownErrShape)
    (hm : env.mkdirAsFails = false) (hc : env.createFails = false)
    (hch : env.chmodFails = false) (he : env.chownErr = some e) :
    (GetLocalListener env = GllOutcome.okSwallowedChownErr ↔
      env.uid ≠ 0 ∧ env.goos = "darwin" ∧ e.isPathError = true ∧
        e.op = "chown" ∧ e.isEPERM = true) ∧
    (gllSwallows env e = false → GetLocalListener env = GllOutcome.errListenerClosed) := by
  have hg : GetLocalListener env =
      (if gllSwallows env e then GllOutcome.okSwallowedChownErr
       else GllOutcome.errListenerClosed) := by
    unfold GetLocalListener
    rw [hm, hc, hch, he]
    rfl
  constructor
  · rw [hg]
    constructor
    · intro hsw
      by_cases hb : gllSwallows env e = true
      · unfold gllSwallows at hb
        simp only [Bool.and_eq_true, decide_eq_true_eq, bne_iff_ne, ne_eq] at hb
        exact ⟨hb.1.1.1.1, hb.1.1.1.2, hb.1.1.2, hb.1.2, hb.2⟩
      · rw [Bool.not_eq_true] at hb
        rw [if_neg (by simp [hb])] at hsw
        exact absurd hsw (by decide)
    · intro ⟨h1, h2, h3, h4, h5⟩
      rw [if_pos (by unfold gllSwallows; simp [h1, h2, h3, h4, h5])]
  · intro hf
    rw [hg, if_neg (by simp [hf])]

/-- C8 witness: the amended statement evaluated at the darwin non-root
environment with an EPERM chown path error (swallowed), and at the same
environment on linux (propagated, listener closed). -/
theorem C8_witness :
    GetLocalListener
        ⟨"darwin", 501, false, false, false, some ⟨true, "chown", true⟩, true⟩ =
      GllOutcome.okSwallowedChownErr ∧
    GetLocalListener
        ⟨"linux", 501, false, false, false, some ⟨true, "chown", true⟩, true⟩ =
      GllOutcome.errListenerClosed :=
  ⟨((C8_amended ⟨"darwin", 501, false, false, false, some ⟨true, "chown", true⟩, true⟩
      ⟨true, "chown", true⟩ rfl rfl rfl rfl).1).mpr
      (by refine ⟨by decide, rfl, rfl, rfl, rfl⟩),
   ((C8_amended ⟨"linux", 501, false, false, false, some ⟨true, "chown", true⟩, true⟩
      ⟨true, "chown", true⟩ rfl rfl rfl rfl).2) (by decide)⟩

/-! ### Claim C9 -/

/-- Ok test for an Except value. -/
def exceptIsOk {ε α : Type} : Except ε α → Bool
  | .ok _ => true
  | .error _ => false

/-- C9: the mount-backend selector defaults to "macfuse" when the
environment value is unset and otherwise accepts exactly the three values
"macfuse", "macfuse-fskit" and "fuse-t"; an invalid selector makes
Mount.mount fail with the configuration error before any command is
executed; and the mount operation executes at most one command, so the
error is never retried. -/
theorem C9_mount_backend_selector (envVal : String) (execFails : Bool)
    (m : GoMount) (target : String) :
    (getDawinMountSystem "" = .ok "macfuse") ∧
    (envVal ≠ "" →
      (exceptIsOk (getDawinMountSystem envVal) = true ↔
        envVal = "macfuse" ∨ envVal = "macfuse-fskit" ∨ envVal = "fuse-t")) ∧
    (∀ err, getDawinMountSystem envVal = .error err →
      mountRun envVal execFails m target = (.error err, [])) ∧
    (mountRun envVal execFails m target).2.length ≤ 1 := by
  refine ⟨rfl, ?_, ?_, ?_⟩
  · intro hne
    unfold getDawinMountSystem
    rw [if_neg hne]
    by_cases h1 : envVal = "fuse-t"
    · rw [if_neg (by simp [h1])]
      simp [exceptIsOk, h1]
    · by_cases h2 : envVal = "macfuse"
      · rw [if_neg (by simp [h2])]
        simp [exceptIsOk, h2]
      · by_cases h3 : envVal = "macfuse-fskit"
        · rw [if_neg (by simp [h3])]
          simp [exceptIsOk, h3]
        · rw [if_pos (by simp [h1, h2, h3])]
          simp [exceptIsOk, h1, h2, h3]
  · intro err herr
    unfold mountRun
    rw [herr]
  · unfold mountRun
    cases hg : getDawinMountSystem envVal with
    | error e => simp
    | ok ms =>
      cases execFails <;> simp

/-- C9 witness: the invalid selector "bogus" makes the mount fail with the
configuration error and an empty command trace. -/
theorem C9_witness :
    ("bogus" : String) ≠ "" ∧
    mountRun "bogus" false ⟨"bind", "/src", ["rbind", "ro"]⟩ "/dst" =
      (.error "invalid DARWIN_MOUNT_SYSTEM: bogus", []) :=
  ⟨by decide,
   (C9_mount_backend_selector "bogus" false ⟨"bind", "/src", ["rbind", "ro"]⟩ "/dst").2.2.1
     "invalid DARWIN_MOUNT_SYSTEM: bogus" rfl⟩

/-! ### Claim C10 -/

/-- C10: CreateUnixSocket rejects every path longer than 104 bytes with an
error, performing no directory creation, no unlink and no bind: the effect
trace is empty. -/
theorem C10_long_path_rejected (env : CusEnv) (path : String)
    (h : path.utf8ByteSize > 104) :
    CreateUnixSocket env path =
      (.error ("\"" ++ path ++ "\": unix socket path too long (> 104)"), []) := by
  unfold CreateUnixSocket
  rw [if_pos h]

/-- C10 witness: a 105-byte path is rejected with an empty effect trace. -/
theorem C10_witness :
    (String.mk (List.replicate 105 'a')).utf8ByteSize > 104 ∧
    (CreateUnixSocket ⟨false, false, false⟩ (String.mk (List.replicate 105 'a'))).2 = [] :=
  ⟨by decide,
   by rw [C10_long_path_rejected ⟨false, false, false⟩ (String.mk (List.replicate 105 'a'))
       (by decide)]⟩
